import Mathlib

/-! url-shortener: the SQLite storage and the save handler

A shallow embedding of `internal/storage/sqlite/sqlite.go` and of
`internal/http-server/handlers/url/save/save.go`.

The Go methods talk to `database/sql` with the `go-sqlite3` driver.  The table
`urls` behind the handle is a list of rows; each call of a method receives an
`Env` describing what the backend does during that call besides executing the
statement (an injected failure of `Prepare`, `Exec`, `LastInsertId` or `Scan`).
-/

/-- Error values that `database/sql` and the `go-sqlite3` driver hand back.
`sqlite3Error` is a value whose dynamic type is `sqlite3.Error`; `other` is any
other error value (it never matches `sql.ErrNoRows`). -/
inductive BackendError where
  | ErrNoRows
  | sqlite3Error (Code ExtendedCode : Nat)
  | other (text : String)
  deriving DecidableEq, Repr

/-- Modelled from the spec: the two error values of package `internal/storage`
(`storage.ErrURLNotFound`, the spec's `NotFound`, and `storage.ErrURLExists`, the
spec's `AliasExists`), whose declaration is not among the sources.  The other two
constructors are a backend error seen as a Go `error`, and the result of
`fmt.Errorf(text + "%w", err)`; `text` is the formatted text before the verb. -/
inductive GoError where
  | ErrURLNotFound
  | ErrURLExists
  | backend (err : BackendError)
  | Errorf (text : String) (err : GoError)
  deriving DecidableEq, Repr

/-- The function `errors.Is`: walk the `%w` chain and compare with the target.
Every target in this program is a package-level value, and the result of
`fmt.Errorf` is a fresh pointer, so a wrapper itself is never the target. -/
def errorsIs : GoError → GoError → Bool
  | .Errorf _ err, target => errorsIs err target
  | err, target => err == target

/-- What the backend does during one call, besides executing the statement:
a failure reported by `sql.Open`, `Prepare`, `Exec`, `LastInsertId` or `Scan`
(`none`: that step works), and `rowid`, the outcome of the engine's search for
an unused rowid, consulted only when the largest rowid is already in use. -/
structure Env where
  Open : Option BackendError
  Prepare : Option BackendError
  Exec : Option BackendError
  LastInsertId : Option BackendError
  Scan : Option BackendError
  rowid : Option Nat
  deriving DecidableEq, Repr

/-- A call during which no backend failure is injected. -/
def Env.ok : Env := ⟨none, none, none, none, none, none⟩

namespace sqlite

/-- One row of table `urls`: `id INTEGER PRIMARY KEY, alias TEXT UNIQUE NOT NULL,
url TEXT NOT NULL`
(the column `alias` is the field `alias_`, `alias` being reserved in Lean). -/
structure Row where
  id : Nat
  alias_ : String
  url : String
  deriving DecidableEq, Repr

/-- `sqlite3.ErrConstraint`. -/
def ErrConstraint : Nat := 19

/-- `sqlite3.ErrConstraintUnique`, that is `ErrConstraint.Extend(8)`. -/
def ErrConstraintUnique : Nat := 19 + 8 * 256

/-- `sqlite3.ErrFull`. -/
def ErrFull : Nat := 13

/-- Largest rowid, the largest `int64`. -/
def maxInt64 : Nat := 2 ^ 63 - 1

/-- The four SQL texts of `sqlite.go`. -/
inductive Stmt where
  /-- `CREATE TABLE IF NOT EXISTS urls (id INTEGER PRIMARY KEY, alias TEXT UNIQUE NOT NULL,
  url TEXT NOT NULL); ...` -/
  | createUrls
  /-- `INSERT INTO urls (alias, url) VALUES (?,?)` -/
  | insertUrls
  /-- `SELECT url FROM urls WHERE alias=?` -/
  | selectUrl
  /-- `DELETE FROM urls WHERE alias=?` -/
  | deleteUrls
  deriving DecidableEq, Repr

/-- A `sql.Result`. -/
structure Result where
  lastInsertId : Nat
  rowsAffected : Nat
  deriving DecidableEq, Repr

/-- Largest rowid in use, 0 for the empty table. -/
def maxRowid (t : List Row) : Nat :=
  t.foldl (fun m r => max m r.id) 0

/-- The rowid SQLite gives to a row inserted without an explicit `id` into a
table with `INTEGER PRIMARY KEY` and no `AUTOINCREMENT`: one more than the
largest rowid in use (1 for the empty table); when the largest rowid is the
largest integer, an unused one found by random search, or none (`SQLITE_FULL`). -/
def newRowid (pick : Option Nat) (t : List Row) : Option Nat :=
  if maxRowid t < maxInt64 then some (maxRowid t + 1)
  else
    match pick with
    | some r => if 1 ≤ r ∧ r ≤ maxInt64 ∧ t.all (fun x => x.id != r) then some r else none
    | none => none

/-- `db.Prepare(query)`. -/
def dbPrepare (env : Env) (query : Stmt) : Except BackendError Stmt :=
  match env.Prepare with
  | some err => .error err
  | none => .ok query

/-- `stmt.Exec(args...)` on the table `t`: positional arguments are bound to the
`?` placeholders in order.  A failed statement leaves the table as it was. -/
def stmtExec (env : Env) (stmt : Stmt) (args : List String) (t : List Row) :
    Except BackendError (Result × List Row) :=
  match env.Exec with
  | some err => .error err
  | none =>
    match stmt, args with
    | .createUrls, [] => .ok (⟨0, 0⟩, t)
    | .insertUrls, [a1, a2] =>
      -- columns (alias, url) receive (?1, ?2)
      if t.any (fun r => r.alias_ == a1) then
        .error (.sqlite3Error ErrConstraint ErrConstraintUnique)
      else
        match newRowid env.rowid t with
        | none => .error (.sqlite3Error ErrFull ErrFull)
        | some id => .ok (⟨id, 1⟩, t ++ [⟨id, a1, a2⟩])
    | .deleteUrls, [a1] =>
      .ok (⟨0, (t.filter (fun r => r.alias_ == a1)).length⟩, t.filter (fun r => r.alias_ != a1))
    | _, _ => .error (.other "sql: statement and arguments do not match")

/-- `res.LastInsertId()`. -/
def resLastInsertId (env : Env) (res : Result) : Except BackendError Nat :=
  match env.LastInsertId with
  | some err => .error err
  | none => .ok res.lastInsertId

/-- `db.QueryRow(query, args...)` followed by `row.Scan(&url)`: the first
matching row, `sql.ErrNoRows` when there is none. -/
def dbQueryRowScan (env : Env) (query : Stmt) (args : List String) (t : List Row) :
    Except BackendError String :=
  match env.Scan with
  | some err => .error err
  | none =>
    match query, args with
    | .selectUrl, [a1] =>
      match t.find? (fun r => r.alias_ == a1) with
      | some r => .ok r.url
      | none => .error .ErrNoRows
    | _, _ => .error (.other "sql: statement and arguments do not match")

/-- The struct `Storage`: the handle `db`, seen as the rows of table `urls`. -/
structure Storage where
  db : List Row
  deriving DecidableEq, Repr

/-- The function `New(StoragePath)`; `file` is the rows of table `urls` already in
the database at that path (none for a fresh database). -/
def New (env : Env) (file : List Row) : Except GoError Storage :=
  match env.Open with
  | some err => .error (.Errorf "storage.sqlite.New: " (.backend err))
  | none =>
    match dbPrepare env .createUrls with
    | .error err => .error (.Errorf "storage.sqlite.New: " (.backend err))
    | .ok stmt =>
      match stmtExec env stmt [] file with
      | .error err => .error (.Errorf "storage.sqlite.New: " (.backend err))
      | .ok (_, t) => .ok ⟨t⟩

/-- The method `(s *Storage) SaveURL(urlToSave, alias string) (int64, error)`. -/
def Storage.SaveURL (s : Storage) (env : Env) (urlToSave alias_ : String) :
    (Nat × Option GoError) × Storage :=
  match dbPrepare env .insertUrls with
  | .error err => ((0, some (.Errorf "storage.sqlite.SaveURL: " (.backend err))), s)
  | .ok stmt =>
    match stmtExec env stmt [urlToSave, alias_] s.db with
    | .error err =>
      match err with
      | .sqlite3Error _ ExtendedCode =>
        if ExtendedCode = ErrConstraintUnique then
          ((0, some (.Errorf "storage.sqlite.SaveURL: Alias already exists " .ErrURLExists)), s)
        else
          ((0, some (.Errorf "storage.sqlite.SaveURL:  " (.backend err))), s)
      | _ => ((0, some (.Errorf "storage.sqlite.SaveURL:  " (.backend err))), s)
    | .ok (res, t) =>
      match resLastInsertId env res with
      | .error err =>
        ((0, some (.Errorf "storage.sqlite.SaveURL: Failed to get lastid " (.backend err))), ⟨t⟩)
      | .ok id => ((id, none), ⟨t⟩)

/-- The method `(s *Storage) GetURL(alias string) (string, error)`. -/
def Storage.GetURL (s : Storage) (env : Env) (alias_ : String) :
    (String × Option GoError) × Storage :=
  match dbQueryRowScan env .selectUrl [alias_] s.db with
  | .error err =>
    if errorsIs (.backend err) (.backend .ErrNoRows) then
      (("", some .ErrURLNotFound), s)
    else
      (("", some (.Errorf "storage.sqlite.GetURL: " (.backend err))), s)
  | .ok url => ((url, none), s)

/-- The method `(s *Storage) DeleteURL(alias string) error`. -/
def Storage.DeleteURL (s : Storage) (env : Env) (alias_ : String) :
    Option GoError × Storage :=
  match dbPrepare env .deleteUrls with
  | .error err => (some (.Errorf "storage.sqlite.DeleteURL: " (.backend err)), s)
  | .ok stmt =>
    match stmtExec env stmt [alias_] s.db with
    | .error err =>
      (some (.Errorf "storage.sqlite.DeleteURL: Failed to delete url: " (.backend err)), s)
    | .ok (_, t) => (none, ⟨t⟩)

/-- One call on the store, with what the backend does during it. -/
inductive Call where
  | SaveURL (env : Env) (urlToSave alias_ : String)
  | GetURL (env : Env) (alias_ : String)
  | DeleteURL (env : Env) (alias_ : String)
  deriving DecidableEq, Repr

/-- The store after one call. -/
def Call.run (s : Storage) : Call → Storage
  | .SaveURL env urlToSave alias_ => (s.SaveURL env urlToSave alias_).2
  | .GetURL env alias_ => (s.GetURL env alias_).2
  | .DeleteURL env alias_ => (s.DeleteURL env alias_).2

/-- The store after a sequence of calls, first call first. -/
def runCalls (s : Storage) (calls : List Call) : Storage :=
  calls.foldl Call.run s

end sqlite

namespace save

/-- The struct `Request`. -/
structure Request where
  URL : String
  Alias : String
  deriving DecidableEq, Repr

/-- Outcome of `render.DecodeJSON(r.Body, &req)`: an error matching `io.EOF`,
another error, or the decoded request. -/
inductive Decoded where
  | EOF
  | failed
  | ok (req : Request)
  deriving DecidableEq, Repr

/-- Modelled from the spec: the bodies the handler renders.  Package
`internal/lib/api/response` (`resp.Error`, `resp.ValidationError`, `resp.OK`) is
not among the sources, so a body is recorded as the call that built it:
`Error msg` is `resp.Error(msg)`, `ValidationError` is `resp.ValidationError(errs)`
and `OK alias` is what `responseOK(w, r, alias)` renders. -/
inductive Rendered where
  | Error (msg : String)
  | ValidationError
  | OK (alias_ : String)
  deriving DecidableEq, Repr

/-- The constant `aliasLength`. -/
def aliasLength : Nat := 6

/-- The interface `URLSaver`, over a saver whose state has type `σ`. -/
structure URLSaver (σ : Type) where
  SaveURL : σ → String → String → (Nat × Option GoError) × σ

/-- The handler returned by `New(log, urlSaver)`, logging left out: the body it
renders and the saver afterwards.  `decoded` is the outcome of decoding the
request body, `validate` the verdict of `validator.New().Struct(req)` (true:
no error), and `NewRandomString` is `random.NewRandomString`, whose package is
not among the sources. -/
def New {σ : Type} (urlSaver : URLSaver σ) (validate : Request → Bool)
    (NewRandomString : Nat → String) (decoded : Decoded) (st : σ) : Rendered × σ :=
  match decoded with
  | .EOF => (.Error "Empty request body", st)
  | .failed => (.Error "Invalid request body", st)
  | .ok req =>
    if !validate req then (.ValidationError, st)
    else
      let alias_ := if req.Alias = "" then NewRandomString aliasLength else req.Alias
      match urlSaver.SaveURL st req.URL alias_ with
      | ((_, err), st1) =>
        match err with
        | some e =>
          if errorsIs e .ErrURLExists then (.Error "Alias already exists", st1)
          else (.Error "Failed to save URL", st1)
        | none => (.OK alias_, st1)

/-- A saver that reports `storage.ErrURLExists` on every call and counts its calls. -/
def alwaysExists : URLSaver Nat :=
  ⟨fun n _ _ =>
    ((0, some (.Errorf "storage.sqlite.SaveURL: Alias already exists " .ErrURLExists)), n + 1)⟩

/-- A saver that behaves as `urlSaver` and also records the arguments of every
`SaveURL` call it receives, oldest first. -/
def recording {σ : Type} (urlSaver : URLSaver σ) : URLSaver (σ × List (String × String)) :=
  ⟨fun st urlToSave alias_ =>
    ((urlSaver.SaveURL st.1 urlToSave alias_).1,
      ((urlSaver.SaveURL st.1 urlToSave alias_).2, st.2 ++ [(urlToSave, alias_)]))⟩

end save

namespace sqlite

/-- The ids returned by the successful `SaveURL` calls of a sequence, in order. -/
def savedIds (s : Storage) : List Call → List Nat
  | [] => []
  | .SaveURL env urlToSave alias_ :: rest =>
    match (s.SaveURL env urlToSave alias_).1 with
    | (id, none) => id :: savedIds (s.SaveURL env urlToSave alias_).2 rest
    | (_, some _) => savedIds (s.SaveURL env urlToSave alias_).2 rest
  | call :: rest => savedIds (call.run s) rest

end sqlite

/-! Failing inputs of the argument order in `SaveURL`

`SaveURL` executes `INSERT INTO urls (alias, url) VALUES (?,?)` with the arguments
`(urlToSave, alias)`: column `alias` receives the URL and column `url` the alias. -/

/-- C1 (round trip), evaluated on the fresh store: `SaveURL("https://example.com", "ex")`
succeeds with id 1 and stores the row `(1, alias = "https://example.com", url = "ex")`;
the following `GetURL("ex")` returns the empty string and `storage.ErrURLNotFound`. -/
theorem roundtrip_fails_on_fresh_store :
    sqlite.New Env.ok [] = .ok ⟨[]⟩ ∧
    sqlite.Storage.SaveURL ⟨[]⟩ Env.ok "https://example.com" "ex" =
      ((1, none), ⟨[⟨1, "https://example.com", "ex"⟩]⟩) ∧
    sqlite.Storage.GetURL ⟨[⟨1, "https://example.com", "ex"⟩]⟩ Env.ok "ex" =
      (("", some .ErrURLNotFound), ⟨[⟨1, "https://example.com", "ex"⟩]⟩) := by
  refine ⟨rfl, ?_⟩
  decide

/-- C2 (collision signaling), evaluated on the fresh store: after
`SaveURL("https://one.example", "x")` the call `SaveURL("https://two.example", "x")`
succeeds with id 2 instead of failing with `storage.ErrURLExists`, and `GetURL("x")`
then returns `storage.ErrURLNotFound` instead of the first URL. -/
theorem second_save_same_alias_succeeds :
    sqlite.Storage.SaveURL ⟨[]⟩ Env.ok "https://one.example" "x" =
      ((1, none), ⟨[⟨1, "https://one.example", "x"⟩]⟩) ∧
    sqlite.Storage.SaveURL ⟨[⟨1, "https://one.example", "x"⟩]⟩ Env.ok "https://two.example" "x" =
      ((2, none), ⟨[⟨1, "https://one.example", "x"⟩, ⟨2, "https://two.example", "x"⟩]⟩) ∧
    (sqlite.Storage.GetURL ⟨[⟨1, "https://one.example", "x"⟩, ⟨2, "https://two.example", "x"⟩]⟩
      Env.ok "x").1 = ("", some .ErrURLNotFound) := by
  decide

/-- C7 (the url need not be unique), evaluated on the fresh store: after
`SaveURL("https://example.com", "a")` the call `SaveURL("https://example.com", "b")`
with another alias fails with an error matching `storage.ErrURLExists`, and
neither `GetURL("a")` nor `GetURL("b")` returns the URL. -/
theorem same_url_two_aliases_rejected :
    sqlite.Storage.SaveURL ⟨[]⟩ Env.ok "https://example.com" "a" =
      ((1, none), ⟨[⟨1, "https://example.com", "a"⟩]⟩) ∧
    sqlite.Storage.SaveURL ⟨[⟨1, "https://example.com", "a"⟩]⟩ Env.ok "https://example.com" "b" =
      ((0, some (.Errorf "storage.sqlite.SaveURL: Alias already exists " .ErrURLExists)),
        ⟨[⟨1, "https://example.com", "a"⟩]⟩) ∧
    errorsIs (.Errorf "storage.sqlite.SaveURL: Alias already exists " .ErrURLExists)
      .ErrURLExists = true ∧
    (sqlite.Storage.GetURL ⟨[⟨1, "https://example.com", "a"⟩]⟩ Env.ok "a").1 =
      ("", some .ErrURLNotFound) ∧
    (sqlite.Storage.GetURL ⟨[⟨1, "https://example.com", "a"⟩]⟩ Env.ok "b").1 =
      ("", some .ErrURLNotFound) := by
  decide

/-- C8 (delete removes what save created), evaluated on the fresh store: after
`SaveURL("https://example.com", "ex")` the call `DeleteURL("ex")` returns no error
and leaves the saved row in the store, which is not the store before the save. -/
theorem delete_leaves_saved_record :
    sqlite.Storage.SaveURL ⟨[]⟩ Env.ok "https://example.com" "ex" =
      ((1, none), ⟨[⟨1, "https://example.com", "ex"⟩]⟩) ∧
    sqlite.Storage.DeleteURL ⟨[⟨1, "https://example.com", "ex"⟩]⟩ Env.ok "ex" =
      (none, ⟨[⟨1, "https://example.com", "ex"⟩]⟩) ∧
    (sqlite.Storage.DeleteURL ⟨[⟨1, "https://example.com", "ex"⟩]⟩ Env.ok "ex").2 ≠
      (⟨[]⟩ : sqlite.Storage) := by
  decide

/-- C3 (uniqueness invariant), evaluated on the fresh store created by `New`:
`SaveURL("https://one.example", "x")` and `SaveURL("https://two.example", "x")` both
succeed, with ids 1 and 2, and the store then holds two records saved under the
alias "x" (the alias argument is in column `url`), where the claim allows one. -/
theorem two_records_under_one_alias :
    sqlite.New Env.ok [] = .ok ⟨[]⟩ ∧
    sqlite.savedIds ⟨[]⟩ [.SaveURL Env.ok "https://one.example" "x",
      .SaveURL Env.ok "https://two.example" "x"] = [1, 2] ∧
    sqlite.runCalls ⟨[]⟩ [.SaveURL Env.ok "https://one.example" "x",
      .SaveURL Env.ok "https://two.example" "x"] =
      ⟨[⟨1, "https://one.example", "x"⟩, ⟨2, "https://two.example", "x"⟩]⟩ ∧
    ((sqlite.runCalls ⟨[]⟩ [.SaveURL Env.ok "https://one.example" "x",
      .SaveURL Env.ok "https://two.example" "x"]).db.filter
        (fun r => r.url == "x")).length = 2 := by
  refine ⟨rfl, ?_⟩
  decide

/-! ## Helper lemmas on the backend and the three methods -/

namespace sqlite

/-- A successful `INSERT`: no injected failure, no row with the bound alias, and
the new row is appended with the rowid chosen by the engine. -/
theorem stmtExec_insert_ok {env : Env} {a1 a2 : String} {t t1 : List Row} {res : Result}
    (h : stmtExec env .insertUrls [a1, a2] t = .ok (res, t1)) :
    env.Exec = none ∧ (∀ r ∈ t, r.alias_ ≠ a1) ∧
      newRowid env.rowid t = some res.lastInsertId ∧
      t1 = t ++ [⟨res.lastInsertId, a1, a2⟩] := by
  unfold stmtExec at h
  cases hE : env.Exec with
  | some e => simp [hE] at h
  | none =>
    simp only [hE] at h
    by_cases hany : t.any (fun r => r.alias_ == a1) = true
    · simp [hany] at h
    · simp only [hany] at h
      cases hid : newRowid env.rowid t with
      | none => simp [hid] at h
      | some id =>
        simp only [hid] at h
        simp only [Bool.false_eq_true, if_false, Except.ok.injEq, Prod.mk.injEq] at h
        obtain ⟨h1, h2⟩ := h
        subst h1
        refine ⟨rfl, ?_, rfl, h2.symm⟩
        intro r hr hra
        apply hany
        simp only [List.any_eq_true, beq_iff_eq]
        exact ⟨r, hr, hra⟩

theorem foldl_max_bounds (t : List Row) (m : Nat) :
    m ≤ t.foldl (fun m r => max m r.id) m ∧
      ∀ r ∈ t, r.id ≤ t.foldl (fun m r => max m r.id) m := by
  induction t generalizing m with
  | nil => simp
  | cons x xs ih =>
    simp only [List.foldl_cons, List.mem_cons]
    obtain ⟨h1, h2⟩ := ih (max m x.id)
    refine ⟨le_trans (le_max_left _ _) h1, ?_⟩
    rintro r (rfl | hr)
    · exact le_trans (le_max_right _ _) h1
    · exact h2 r hr

/-- No stored rowid exceeds `maxRowid`. -/
theorem le_maxRowid (t : List Row) : ∀ r ∈ t, r.id ≤ maxRowid t :=
  (foldl_max_bounds t 0).2

end sqlite

/-! ## The store contract -/

/-- C4 as stated fails.  On the fresh store, with a backend whose `Scan` reports
"sql: database is closed", `GetURL("never-created")` returns the wrapped backend
error, which does not match `storage.ErrURLNotFound`; and after
`SaveURL("https://example.com", "ex")` the string "https://example.com", never
passed to `SaveURL` as an alias, is resolved by `GetURL` to "ex" without error. -/
theorem GetURL_absent_alias_other_results :
    sqlite.Storage.GetURL ⟨[]⟩
        ⟨none, none, none, none, some (.other "sql: database is closed"), none⟩
        "never-created" =
      (("", some (.Errorf "storage.sqlite.GetURL: "
        (.backend (.other "sql: database is closed")))), ⟨[]⟩) ∧
    errorsIs (.Errorf "storage.sqlite.GetURL: " (.backend (.other "sql: database is closed")))
      .ErrURLNotFound = false ∧
    (sqlite.Storage.SaveURL ⟨[]⟩ Env.ok "https://example.com" "ex").2 =
      ⟨[⟨1, "https://example.com", "ex"⟩]⟩ ∧
    sqlite.Storage.GetURL ⟨[⟨1, "https://example.com", "ex"⟩]⟩ Env.ok "https://example.com" =
      (("ex", none), ⟨[⟨1, "https://example.com", "ex"⟩]⟩) := by
  decide

/-- C4 amended: for every store and every string that is the alias column of no
stored record, `GetURL` leaves the store unchanged and returns the empty string
together with `storage.ErrURLNotFound` when the backend reports no failure of
the query, and together with `fmt.Errorf` wrapping the cause when the backend
reports a failure other than `sql.ErrNoRows`. -/
theorem GetURL_no_row (s : sqlite.Storage) (env : Env) (alias_ : String)
    (hAbsent : ∀ r ∈ s.db, r.alias_ ≠ alias_) :
    (env.Scan = none → s.GetURL env alias_ = (("", some .ErrURLNotFound), s)) ∧
    (∀ cause, env.Scan = some cause → cause ≠ .ErrNoRows →
      s.GetURL env alias_ =
        (("", some (.Errorf "storage.sqlite.GetURL: " (.backend cause))), s)) := by
  constructor
  · intro hScan
    have hfind : s.db.find? (fun r => r.alias_ == alias_) = none := by
      rw [List.find?_eq_none]
      intro r hr
      simpa using hAbsent r hr
    unfold sqlite.Storage.GetURL sqlite.dbQueryRowScan
    simp only [hScan, hfind]
    rfl
  · intro cause hScan hne
    unfold sqlite.Storage.GetURL sqlite.dbQueryRowScan
    simp only [hScan]
    have : errorsIs (.backend cause) (.backend .ErrNoRows) = false := by
      simp [errorsIs, hne]
    simp [this]

/-- Witness of C4 amended: the string "never-created" on a store holding one
record, without and with a backend failure. -/
theorem GetURL_no_row_witness :
    sqlite.Storage.GetURL ⟨[⟨1, "https://example.com", "ex"⟩]⟩ Env.ok "never-created" =
      (("", some .ErrURLNotFound), ⟨[⟨1, "https://example.com", "ex"⟩]⟩) ∧
    sqlite.Storage.GetURL ⟨[⟨1, "https://example.com", "ex"⟩]⟩
        ⟨none, none, none, none, some (.other "sql: database is closed"), none⟩
        "never-created" =
      (("", some (.Errorf "storage.sqlite.GetURL: "
        (.backend (.other "sql: database is closed")))),
        ⟨[⟨1, "https://example.com", "ex"⟩]⟩) :=
  ⟨(GetURL_no_row ⟨[⟨1, "https://example.com", "ex"⟩]⟩ Env.ok "never-created"
      (by decide)).1 rfl,
   (GetURL_no_row ⟨[⟨1, "https://example.com", "ex"⟩]⟩
      ⟨none, none, none, none, some (.other "sql: database is closed"), none⟩ "never-created"
      (by decide)).2 _ rfl (by decide)⟩

/-- C5 (delete idempotence): for every store and alias, when the backend reports
no failure of `Prepare` or `Exec`, `DeleteURL(a)` returns no error, a second
`DeleteURL(a)` returns no error and leaves the store exactly as the first call
left it, and `DeleteURL` of an alias that no record has returns no error and
leaves the store unchanged. -/
theorem DeleteURL_idempotent (s : sqlite.Storage) (env1 env2 : Env) (alias_ : String)
    (h1 : env1.Prepare = none ∧ env1.Exec = none)
    (h2 : env2.Prepare = none ∧ env2.Exec = none) :
    (s.DeleteURL env1 alias_).1 = none ∧
    (s.DeleteURL env1 alias_).2.DeleteURL env2 alias_ = (none, (s.DeleteURL env1 alias_).2) ∧
    ((∀ r ∈ s.db, r.alias_ ≠ alias_) → s.DeleteURL env1 alias_ = (none, s)) := by
  obtain ⟨hP1, hE1⟩ := h1
  obtain ⟨hP2, hE2⟩ := h2
  have hdel : ∀ (e : Env) (t : sqlite.Storage), e.Prepare = none → e.Exec = none →
      t.DeleteURL e alias_ = (none, ⟨t.db.filter (fun r => r.alias_ != alias_)⟩) := by
    intro e t hP hE
    unfold sqlite.Storage.DeleteURL sqlite.dbPrepare sqlite.stmtExec
    simp only [hP, hE]
  refine ⟨?_, ?_, ?_⟩
  · rw [hdel env1 s hP1 hE1]
  · rw [hdel env1 s hP1 hE1, hdel env2 _ hP2 hE2]
    simp only [List.filter_filter, Bool.and_self]
  · intro hAbsent
    rw [hdel env1 s hP1 hE1]
    have : s.db.filter (fun r => r.alias_ != alias_) = s.db := by
      rw [List.filter_eq_self]
      intro r hr
      simpa using hAbsent r hr
    rw [this]

/-- Witness of C5: deleting the alias "ex" twice from a store holding it, and
deleting the alias "zz", which no record has. -/
theorem DeleteURL_idempotent_witness :
    ((sqlite.Storage.DeleteURL ⟨[⟨1, "ex", "u"⟩, ⟨2, "b", "v"⟩]⟩ Env.ok "ex").1 = none ∧
     (sqlite.Storage.DeleteURL ⟨[⟨1, "ex", "u"⟩, ⟨2, "b", "v"⟩]⟩ Env.ok "ex").2.DeleteURL
        Env.ok "ex" =
      (none, (sqlite.Storage.DeleteURL ⟨[⟨1, "ex", "u"⟩, ⟨2, "b", "v"⟩]⟩ Env.ok "ex").2)) ∧
    sqlite.Storage.DeleteURL ⟨[⟨1, "ex", "u"⟩, ⟨2, "b", "v"⟩]⟩ Env.ok "zz" =
      (none, ⟨[⟨1, "ex", "u"⟩, ⟨2, "b", "v"⟩]⟩) :=
  ⟨⟨(DeleteURL_idempotent ⟨[⟨1, "ex", "u"⟩, ⟨2, "b", "v"⟩]⟩ Env.ok Env.ok "ex"
      ⟨rfl, rfl⟩ ⟨rfl, rfl⟩).1,
    (DeleteURL_idempotent ⟨[⟨1, "ex", "u"⟩, ⟨2, "b", "v"⟩]⟩ Env.ok Env.ok "ex"
      ⟨rfl, rfl⟩ ⟨rfl, rfl⟩).2.1⟩,
   (DeleteURL_idempotent ⟨[⟨1, "ex", "u"⟩, ⟨2, "b", "v"⟩]⟩ Env.ok Env.ok "zz"
      ⟨rfl, rfl⟩ ⟨rfl, rfl⟩).2.2 (by decide)⟩

/-- C6 as stated fails: on the fresh store, `SaveURL("a", "a")`, `DeleteURL("a")`,
`SaveURL("b", "b")` (url and alias equal, so that the delete removes the saved
record) return the ids 1 and 1: the second id is not strictly greater than the
first, the rowid of the deleted record is given out again. -/
theorem deleted_id_is_reused :
    sqlite.savedIds ⟨[]⟩
        [.SaveURL Env.ok "a" "a", .DeleteURL Env.ok "a", .SaveURL Env.ok "b" "b"] = [1, 1] ∧
    ¬ (sqlite.savedIds ⟨[]⟩
        [.SaveURL Env.ok "a" "a", .DeleteURL Env.ok "a", .SaveURL Env.ok "b" "b"]).Pairwise
        (fun x y => x < y) := by
  decide

/-- C6 amended: in every store whose largest id is below the largest `int64`
(every store reached by fewer than 2^63 - 1 calls from the fresh one), a
successful `SaveURL` returns one more than the largest id stored, which is
strictly greater than the id of every record in the store at that moment, and
the record with that id is appended to the store. -/
theorem SaveURL_id_above_stored (s s1 : sqlite.Storage) (env : Env)
    (urlToSave alias_ : String) (id : Nat)
    (hSave : s.SaveURL env urlToSave alias_ = ((id, none), s1))
    (hMax : sqlite.maxRowid s.db < sqlite.maxInt64) :
    id = sqlite.maxRowid s.db + 1 ∧ (∀ r ∈ s.db, r.id < id) ∧
      s1.db = s.db ++ [⟨id, urlToSave, alias_⟩] := by
  have key : id = sqlite.maxRowid s.db + 1 ∧ s1.db = s.db ++ [⟨id, urlToSave, alias_⟩] := by
    unfold sqlite.Storage.SaveURL sqlite.dbPrepare at hSave
    cases hP : env.Prepare with
    | some e => simp [hP] at hSave
    | none =>
      simp only [hP] at hSave
      cases hX : sqlite.stmtExec env .insertUrls [urlToSave, alias_] s.db with
      | error e =>
        rw [hX] at hSave
        cases e with
        | sqlite3Error c x =>
          simp only at hSave
          split at hSave <;> simp at hSave
        | ErrNoRows => simp at hSave
        | other m => simp at hSave
      | ok p =>
        obtain ⟨res, t1⟩ := p
        obtain ⟨_, _, hid, ht⟩ := sqlite.stmtExec_insert_ok hX
        rw [hX] at hSave
        simp only [sqlite.resLastInsertId] at hSave
        cases hL : env.LastInsertId with
        | some e => simp [hL] at hSave
        | none =>
          simp only [hL, Prod.mk.injEq] at hSave
          obtain ⟨⟨h1, _⟩, h2⟩ := hSave
          simp only [sqlite.newRowid, hMax, if_true, Option.some.injEq] at hid
          subst h2
          subst h1
          exact ⟨hid.symm, ht⟩
  refine ⟨key.1, ?_, key.2⟩
  intro r hr
  have := sqlite.le_maxRowid s.db r hr
  omega

/-- Witness of C6 amended: a save on a store holding the ids 1 and 4. -/
theorem SaveURL_id_above_stored_witness :
    5 = sqlite.maxRowid [⟨1, "a", "u"⟩, ⟨4, "b", "v"⟩] + 1 ∧
    (∀ r ∈ ([⟨1, "a", "u"⟩, ⟨4, "b", "v"⟩] : List sqlite.Row), r.id < 5) ∧
    [⟨1, "a", "u"⟩, ⟨4, "b", "v"⟩, ⟨5, "https://example.com", "ex"⟩] =
      ([⟨1, "a", "u"⟩, ⟨4, "b", "v"⟩] : List sqlite.Row) ++ [⟨5, "https://example.com", "ex"⟩] :=
  SaveURL_id_above_stored ⟨[⟨1, "a", "u"⟩, ⟨4, "b", "v"⟩]⟩
    ⟨[⟨1, "a", "u"⟩, ⟨4, "b", "v"⟩, ⟨5, "https://example.com", "ex"⟩]⟩ Env.ok
    "https://example.com" "ex" 5 (by decide) (by decide)

/-! ## The save handler -/

/-- C9 as stated fails: for the valid request `{"url": "https://example.com"}`
without alias and a saver that reports `storage.ErrURLExists` on every call, the
handler calls `SaveURL` once (the call counter goes from 0 to 1) and renders
"Alias already exists", not "Failed to save URL". -/
theorem handler_does_not_retry :
    save.New save.alwaysExists (fun _ => true) (fun _ => "AbCdEf")
        (.ok ⟨"https://example.com", ""⟩) 0 = (.Error "Alias already exists", 1) ∧
    (save.New save.alwaysExists (fun _ => true) (fun _ => "AbCdEf")
        (.ok ⟨"https://example.com", ""⟩) 0).1 ≠ .Error "Failed to save URL" := by
  decide

/-- C9 amended: for every valid request that supplies no alias the handler
generates one candidate, `NewRandomString(aliasLength)`, and calls `SaveURL`
exactly once, with the request URL and that candidate; it renders "Alias already
exists" when that call reports an error matching `storage.ErrURLExists`, "Failed
to save URL" when it reports any other error, and the OK body with the candidate
when it reports none. -/
theorem handler_single_attempt {σ : Type} (urlSaver : save.URLSaver σ)
    (validate : save.Request → Bool) (NewRandomString : Nat → String)
    (req : save.Request) (st : σ)
    (hValid : validate req = true) (hNoAlias : req.Alias = "") :
    save.New urlSaver validate NewRandomString (.ok req) st =
      (match (urlSaver.SaveURL st req.URL (NewRandomString save.aliasLength)).1.2 with
        | some e =>
          if errorsIs e .ErrURLExists then save.Rendered.Error "Alias already exists"
          else save.Rendered.Error "Failed to save URL"
        | none => save.Rendered.OK (NewRandomString save.aliasLength),
       (urlSaver.SaveURL st req.URL (NewRandomString save.aliasLength)).2) ∧
    (save.New (save.recording urlSaver) validate NewRandomString (.ok req) (st, [])).2.2 =
      [(req.URL, NewRandomString save.aliasLength)] := by
  constructor
  · unfold save.New
    simp only [hValid, hNoAlias, Bool.not_true, Bool.false_eq_true, if_false, if_true]
    cases h : (urlSaver.SaveURL st req.URL (NewRandomString save.aliasLength)).1.2 with
    | none => simp only [h]
    | some e =>
      simp only [h]
      split <;> rfl
  · unfold save.New save.recording
    simp only [hValid, hNoAlias, Bool.not_true, Bool.false_eq_true, if_false, if_true]
    cases h : (urlSaver.SaveURL st req.URL (NewRandomString save.aliasLength)).1.2 with
    | none => simp [h]
    | some e =>
      simp only [h]
      split <;> simp

/-- Witness of C9 amended: the saver that always reports `storage.ErrURLExists`,
and its recording of the calls. -/
theorem handler_single_attempt_witness :
    save.New save.alwaysExists (fun _ => true) (fun _ => "AbCdEf")
        (.ok ⟨"https://example.com", ""⟩) 7 = (.Error "Alias already exists", 8) ∧
    (save.New (save.recording save.alwaysExists) (fun _ => true) (fun _ => "AbCdEf")
        (.ok ⟨"https://example.com", ""⟩) (7, [])).2.2 = [("https://example.com", "AbCdEf")] :=
  handler_single_attempt save.alwaysExists (fun _ => true) (fun _ => "AbCdEf")
    ⟨"https://example.com", ""⟩ 7 rfl rfl

/-! ## Failure classification of `SaveURL` -/

/-- Shape of the errors `SaveURL` returns: which of them match
`storage.ErrURLExists`, what the others wrap, and the id beside them. -/
theorem SaveURL_returned_errors (s : sqlite.Storage) (env : Env)
    (urlToSave alias_ : String) :
    ((∃ e, (s.SaveURL env urlToSave alias_).1.2 = some e ∧ errorsIs e .ErrURLExists = true) ↔
      (env.Prepare = none ∧ ∃ Code, sqlite.stmtExec env .insertUrls [urlToSave, alias_] s.db =
        .error (.sqlite3Error Code sqlite.ErrConstraintUnique))) ∧
    (∀ e, (s.SaveURL env urlToSave alias_).1.2 = some e → errorsIs e .ErrURLExists = false →
      ∃ text cause, e = .Errorf text (.backend cause) ∧
        (env.Prepare = some cause ∨
         (env.Prepare = none ∧
            sqlite.stmtExec env .insertUrls [urlToSave, alias_] s.db = .error cause) ∨
         (env.Prepare = none ∧
            (∃ res t, sqlite.stmtExec env .insertUrls [urlToSave, alias_] s.db = .ok (res, t)) ∧
            env.LastInsertId = some cause))) ∧
    (∀ e, (s.SaveURL env urlToSave alias_).1.2 = some e →
      (s.SaveURL env urlToSave alias_).1.1 = 0) := by
  unfold sqlite.Storage.SaveURL sqlite.dbPrepare
  cases hP : env.Prepare with
  | some c =>
    simp only
    refine ⟨⟨?_, ?_⟩, ?_, ?_⟩
    · rintro ⟨e, he, hIs⟩
      simp only [Option.some.injEq] at he
      subst he
      simp [errorsIs] at hIs
    · rintro ⟨h, _⟩
      simp at h
    · intro e he _
      simp only [Option.some.injEq] at he
      exact ⟨_, c, he.symm, Or.inl rfl⟩
    · intro e _
      trivial
  | none =>
    simp only
    cases hX : sqlite.stmtExec env .insertUrls [urlToSave, alias_] s.db with
    | error c =>
      cases c with
      | sqlite3Error Code x =>
        simp only
        by_cases hx : x = sqlite.ErrConstraintUnique
        · subst hx
          simp only [if_true]
          refine ⟨⟨fun _ => ⟨trivial, Code, rfl⟩, fun _ => ⟨_, rfl, by simp [errorsIs]⟩⟩, ?_, ?_⟩
          · intro e he hIs
            simp only [Option.some.injEq] at he
            subst he
            simp [errorsIs] at hIs
          · intro e _
            trivial
        · simp only [hx, if_false]
          refine ⟨⟨?_, ?_⟩, ?_, ?_⟩
          · rintro ⟨e, he, hIs⟩
            simp only [Option.some.injEq] at he
            subst he
            simp [errorsIs] at hIs
          · rintro ⟨_, Code2, h⟩
            simp only [Except.error.injEq, BackendError.sqlite3Error.injEq] at h
            exact absurd h.2 hx
          · intro e he _
            simp only [Option.some.injEq] at he
            exact ⟨_, _, he.symm, Or.inr (Or.inl ⟨trivial, rfl⟩)⟩
          · intro e _
            trivial
      | ErrNoRows =>
        simp only
        refine ⟨⟨?_, ?_⟩, ?_, ?_⟩
        · rintro ⟨e, he, hIs⟩
          simp only [Option.some.injEq] at he
          subst he
          simp [errorsIs] at hIs
        · rintro ⟨_, Code2, h⟩
          simp at h
        · intro e he _
          simp only [Option.some.injEq] at he
          exact ⟨_, _, he.symm, Or.inr (Or.inl ⟨trivial, rfl⟩)⟩
        · intro e _
          trivial
      | other m =>
        simp only
        refine ⟨⟨?_, ?_⟩, ?_, ?_⟩
        · rintro ⟨e, he, hIs⟩
          simp only [Option.some.injEq] at he
          subst he
          simp [errorsIs] at hIs
        · rintro ⟨_, Code2, h⟩
          simp at h
        · intro e he _
          simp only [Option.some.injEq] at he
          exact ⟨_, _, he.symm, Or.inr (Or.inl ⟨trivial, rfl⟩)⟩
        · intro e _
          trivial
    | ok p =>
      obtain ⟨res, t⟩ := p
      simp only [sqlite.resLastInsertId]
      cases hL : env.LastInsertId with
      | some c =>
        simp only
        refine ⟨⟨?_, ?_⟩, ?_, ?_⟩
        · rintro ⟨e, he, hIs⟩
          simp only [Option.some.injEq] at he
          subst he
          simp [errorsIs] at hIs
        · rintro ⟨_, Code2, h⟩
          simp at h
        · intro e he _
          simp only [Option.some.injEq] at he
          exact ⟨_, c, he.symm, Or.inr (Or.inr ⟨trivial, ⟨res, t, rfl⟩, rfl⟩)⟩
        · intro e _
          trivial
      | none =>
        simp only
        refine ⟨⟨?_, ?_⟩, ?_, ?_⟩
        · rintro ⟨e, he, _⟩
          simp at he
        · rintro ⟨_, Code2, h⟩
          simp at h
        · intro e he _
          simp at he
        · intro e he
          simp at he

/-- C10 (save failure classification): for every store, arguments and backend
behaviour, a failure of `Prepare`, of `Exec` or of `LastInsertId` makes `SaveURL`
return the id 0 and an error: the error wraps `storage.ErrURLExists` when `Exec`
failed with a `sqlite3.Error` whose `ExtendedCode` is `ErrConstraintUnique`, and
wraps the underlying cause in every other case, where it does not match
`storage.ErrURLExists`; with no such failure `SaveURL` returns no error.  So an
error matching `storage.ErrURLExists` is returned exactly in the first case. -/
theorem SaveURL_failure_classification (s : sqlite.Storage) (env : Env)
    (urlToSave alias_ : String) :
    (∀ cause, env.Prepare = some cause →
      (s.SaveURL env urlToSave alias_).1 =
        (0, some (.Errorf "storage.sqlite.SaveURL: " (.backend cause)))) ∧
    (∀ Code, env.Prepare = none →
      sqlite.stmtExec env .insertUrls [urlToSave, alias_] s.db =
        .error (.sqlite3Error Code sqlite.ErrConstraintUnique) →
      (s.SaveURL env urlToSave alias_).1 =
        (0, some (.Errorf "storage.sqlite.SaveURL: Alias already exists " .ErrURLExists))) ∧
    (∀ cause, env.Prepare = none →
      sqlite.stmtExec env .insertUrls [urlToSave, alias_] s.db = .error cause →
      (∀ Code, cause ≠ .sqlite3Error Code sqlite.ErrConstraintUnique) →
      (s.SaveURL env urlToSave alias_).1 =
        (0, some (.Errorf "storage.sqlite.SaveURL:  " (.backend cause)))) ∧
    (∀ cause res t, env.Prepare = none →
      sqlite.stmtExec env .insertUrls [urlToSave, alias_] s.db = .ok (res, t) →
      env.LastInsertId = some cause →
      (s.SaveURL env urlToSave alias_).1 =
        (0, some (.Errorf "storage.sqlite.SaveURL: Failed to get lastid " (.backend cause)))) ∧
    (∀ res t, env.Prepare = none →
      sqlite.stmtExec env .insertUrls [urlToSave, alias_] s.db = .ok (res, t) →
      env.LastInsertId = none →
      (s.SaveURL env urlToSave alias_).1 = (res.lastInsertId, none)) ∧
    (∀ text cause, errorsIs (.Errorf text (.backend cause)) .ErrURLExists = false) ∧
    ((∃ e, (s.SaveURL env urlToSave alias_).1.2 = some e ∧ errorsIs e .ErrURLExists = true) ↔
      (env.Prepare = none ∧ ∃ Code, sqlite.stmtExec env .insertUrls [urlToSave, alias_] s.db =
        .error (.sqlite3Error Code sqlite.ErrConstraintUnique))) ∧
    (∀ e, (s.SaveURL env urlToSave alias_).1.2 = some e → errorsIs e .ErrURLExists = false →
      ∃ text cause, e = .Errorf text (.backend cause) ∧
        (env.Prepare = some cause ∨
         (env.Prepare = none ∧
            sqlite.stmtExec env .insertUrls [urlToSave, alias_] s.db = .error cause) ∨
         (env.Prepare = none ∧
            (∃ res t, sqlite.stmtExec env .insertUrls [urlToSave, alias_] s.db = .ok (res, t)) ∧
            env.LastInsertId = some cause))) ∧
    (∀ e, (s.SaveURL env urlToSave alias_).1.2 = some e →
      (s.SaveURL env urlToSave alias_).1.1 = 0) := by
  refine ⟨?_, ?_, ?_, ?_, ?_, ?_, SaveURL_returned_errors s env urlToSave alias_⟩
  · intro cause hP
    simp [sqlite.Storage.SaveURL, sqlite.dbPrepare, hP]
  · intro Code hP hX
    simp [sqlite.Storage.SaveURL, sqlite.dbPrepare, hP, hX]
  · intro cause hP hX hne
    unfold sqlite.Storage.SaveURL sqlite.dbPrepare
    simp only [hP, hX]
    cases cause with
    | sqlite3Error Code x =>
      have hx : x ≠ sqlite.ErrConstraintUnique := by
        intro h
        exact hne Code (by rw [h])
      simp [hx]
    | ErrNoRows => rfl
    | other m => rfl
  · intro cause res t hP hX hL
    simp [sqlite.Storage.SaveURL, sqlite.dbPrepare, sqlite.resLastInsertId, hP, hX, hL]
  · intro res t hP hX hL
    simp [sqlite.Storage.SaveURL, sqlite.dbPrepare, sqlite.resLastInsertId, hP, hX, hL]
  · intro text cause
    simp [errorsIs]

/-- Witness of C10: a closed handle (`Prepare` fails), and a save of a URL that
the alias column already holds. -/
theorem SaveURL_failure_classification_witness :
    (sqlite.Storage.SaveURL ⟨[⟨1, "https://example.com", "a"⟩]⟩
        ⟨none, some (.other "sql: database is closed"), none, none, none, none⟩
        "https://example.com" "b").1 =
      (0, some (.Errorf "storage.sqlite.SaveURL: "
        (.backend (.other "sql: database is closed")))) ∧
    (sqlite.Storage.SaveURL ⟨[⟨1, "https://example.com", "a"⟩]⟩ Env.ok
        "https://example.com" "b").1 =
      (0, some (.Errorf "storage.sqlite.SaveURL: Alias already exists " .ErrURLExists)) :=
  ⟨(SaveURL_failure_classification ⟨[⟨1, "https://example.com", "a"⟩]⟩
      ⟨none, some (.other "sql: database is closed"), none, none, none, none⟩
      "https://example.com" "b").1 _ rfl,
   (SaveURL_failure_classification ⟨[⟨1, "https://example.com", "a"⟩]⟩ Env.ok
      "https://example.com" "b").2.1 19 rfl rfl⟩
